import Mathlib

/-!
# Verification of the driver-packet state-mileage subsystem

Shallow embedding of `src/route_analyzer.py` and `src/state_analyzer.py`
(classes `RouteAnalyzer` and `StateAnalyzer`) of the Iftadriverpackets
repository, together with the configuration constants of `src/config.py`
that those modules read.

Modelling conventions:
* Python floats are modelled as exact rationals (`ℚ`); Python's
  `round(x, 1)` is modelled by `round1` (round half to even, as Python does).
* The remote reverse-geocoding collaborator (`GeocodingService.reverse_geocode`)
  is modelled by the trace of its successive answers, a `List (Option String)`
  consumed one entry per call; `none` stands for a call that failed to
  resolve (no service, remote error, or no state in the response).
* The GIS intersection loop inside `calculate_state_miles_from_polyline`
  (GeoPandas/Shapely) is abstracted: its output — the insertion-ordered
  mapping from state code to raw intersection length in meters, into which
  only positive lengths are inserted — is taken as an argument, and the
  rescaling / rounding / thresholding / contiguous-state stages that follow
  it are embedded faithfully.
* The HERE routing HTTP call of `RouteAnalyzer.calculate_route_distance` is
  modelled by a `HereOutcome` value: either an exception (any `requests`
  failure, modelled by its message) or a decoded JSON body.
-/

set_option linter.unusedVariables false

/-- Round-half-to-even of a rational to an integer, as Python's `round`
performs on an exactly representable value.  (`Rat.floor` is used rather
than `⌊·⌋` so that the definition evaluates by kernel reduction.) -/
def rhe (x : ℚ) : ℤ :=
  if x - x.floor < 1/2 then x.floor
  else if 1/2 < x - x.floor then x.floor + 1
  else if x.floor % 2 = 0 then x.floor else x.floor + 1

/-- Python's `round(x, 1)`: one-decimal rounding, half to even. -/
def round1 (x : ℚ) : ℚ := (rhe (10 * x) : ℚ) / 10

namespace Config

/-- `config.MIN_STATE_MILES_THRESHOLD` default (`"1.0"` in `config.py`). -/
def MIN_STATE_MILES_THRESHOLD : ℚ := 1

/-- `config.ROUTE_SAMPLE_POINTS_MAX` default (`"20"` in `config.py`). -/
def ROUTE_SAMPLE_POINTS_MAX : ℕ := 20

/-- `config.GREAT_CIRCLE_EARTH_RADIUS_MILES = 3956.0` in `config.py`. -/
def GREAT_CIRCLE_EARTH_RADIUS_MILES : ℚ := 3956

/-- `config.METERS_TO_MILES_CONVERSION = 1609.34` in `config.py`
(the code divides meters by this constant to obtain miles). -/
def METERS_TO_MILES_CONVERSION : ℚ := 160934/100

end Config

/-- One entry of a `states` list / `state_mileage` list:
`{"state": ..., "miles": ..., "percentage": ...}`. -/
structure SMEntry where
  state : String
  miles : ℚ
  percentage : ℚ
deriving Repr, DecidableEq

/-- Result dictionary shape shared by `_fallback_endpoint_state_analysis`,
`_calculate_enhanced_state_mileage` and `analyze_route_states_enhanced`.
Optional fields model dictionary keys that are present only in some of
those result dictionaries. -/
structure AnalysisResult where
  states : List SMEntry
  analysis_method : String
  total_distance_analyzed : ℚ
  route_coverage_percentage : Option ℚ
  sample_points_used : Option ℕ
  states_detected : Option ℕ
  note : Option String
deriving Repr, DecidableEq

/-- `StateAnalyzer._fallback_endpoint_state_analysis`
(src/state_analyzer.py lines 565-623).  The two endpoint coordinates are
passed to the reverse-geocoding collaborator only; the results of those two
collaborator calls are the `origin_state` / `dest_state` arguments
(`None` both when the service is absent and when resolution fails). -/
def fallback_endpoint_state_analysis (origin_coords destination_coords : ℚ × ℚ)
    (origin_state dest_state : Option String)
    (total_distance_miles : ℚ) : AnalysisResult :=
  let states_list : List SMEntry :=
    match origin_state, dest_state with
    | some os, some ds =>
      if os = ds then
        [⟨os, round1 total_distance_miles, 100⟩]
      else
        [⟨os, round1 (total_distance_miles / 2), 50⟩,
         ⟨ds, round1 (total_distance_miles / 2), 50⟩]
    | _, _ => []
  { states := states_list
    analysis_method := "fallback_endpoints"
    total_distance_analyzed := total_distance_miles
    route_coverage_percentage := some 100
    sample_points_used := none
    states_detected := none
    note := some "Fallback analysis - may miss intermediate states" }

/-- One element of the `state_segments` list built by
`_calculate_enhanced_state_mileage`. -/
structure Segment where
  state : String
  distance_miles : ℚ
  startFrac : ℚ
  endFrac : ℚ
deriving Repr, DecidableEq

/-- The segment-grouping loop of `_calculate_enhanced_state_mileage`
(src/state_analyzer.py lines 464-502): walk the resolved
`(state, distance_ratio)` points, closing a segment at each state change
and closing the final segment at progress 1.0.  The second argument is the
`(current_state, segment_start_ratio)` pair (`none` initially). -/
def buildSegments (total : ℚ) :
    List (String × ℚ) → Option (String × ℚ) → List Segment
  | [], none => []
  | [], some (cs, sr) => [⟨cs, (1 - sr) * total, sr, 1⟩]
  | (s, r) :: rest, none => buildSegments total rest (some (s, r))
  | (s, r) :: rest, some (cs, sr) =>
    if s = cs then buildSegments total rest (some (cs, sr))
    else ⟨cs, (r - sr) * total, sr, r⟩ :: buildSegments total rest (some (s, r))

/-- Insertion-ordered dictionary accumulation:
`state_totals[state] = state_totals.get(state, 0) + distance`. -/
def addToAssoc : List (String × ℚ) → String → ℚ → List (String × ℚ)
  | [], s, d => [(s, d)]
  | (s', v) :: rest, s, d =>
    if s' = s then (s', v + d) :: rest else (s', v) :: addToAssoc rest s d

/-- Descending-by-miles comparison used to sort `states_list`
(`key=lambda x: x["miles"], reverse=True`). -/
def milesDescR (a b : SMEntry) : Prop := b.miles ≤ a.miles

instance : DecidableRel milesDescR := fun a b => inferInstanceAs (Decidable (b.miles ≤ a.miles))

instance : IsTotal SMEntry milesDescR := ⟨fun a b => le_total b.miles a.miles⟩

instance : IsTrans SMEntry milesDescR := ⟨fun _ _ _ h₁ h₂ => le_trans h₂ h₁⟩

/-- Python's stable `list.sort(key=..., reverse=True)` on miles. -/
def sortByMilesDesc (l : List SMEntry) : List SMEntry := List.insertionSort milesDescR l

/-- `StateAnalyzer._calculate_enhanced_state_mileage`
(src/state_analyzer.py lines 451-563), taking the
`states_encountered` list as `(state, distance_ratio)` pairs. -/
def calculate_enhanced_state_mileage (states_encountered : List (String × ℚ))
    (total_distance_miles : ℚ) : AnalysisResult :=
  if states_encountered.isEmpty then
    { states := []
      analysis_method := "enhanced_failed"
      total_distance_analyzed := 0
      route_coverage_percentage := none
      sample_points_used := none
      states_detected := none
      note := none }
  else
    let state_segments := buildSegments total_distance_miles states_encountered none
    let state_totals := state_segments.foldl
      (fun acc seg => addToAssoc acc seg.state seg.distance_miles) []
    let states_list : List SMEntry := state_totals.filterMap fun p =>
      if 1 ≤ p.2 then
        some ⟨p.1, round1 p.2,
          round1 (if 0 < total_distance_miles then p.2 / total_distance_miles * 100 else 0)⟩
      else none
    let total_accounted := ((state_totals.filter fun p => 1 ≤ p.2).map Prod.snd).sum
    let sorted := sortByMilesDesc states_list
    { states := sorted
      analysis_method := "enhanced_route_sampling"
      total_distance_analyzed := total_distance_miles
      route_coverage_percentage :=
        some (round1 (if 0 < total_distance_miles
          then total_accounted / total_distance_miles * 100 else 0))
      sample_points_used := some states_encountered.length
      states_detected := some states_list.length
      note := none }

/-- Number of base sample points chosen by `_generate_route_sample_points`
from the leg distance (src/state_analyzer.py lines 386-394). -/
def numSamplePoints (distance_miles : ℚ) : ℕ :=
  if distance_miles < 100 then 5
  else if distance_miles < 500 then 8
  else if distance_miles < 1000 then 12
  else 15

/-- The linear-interpolation base points `[origin, lerp..., destination]`
of `_generate_route_sample_points` (lines 384-406): intermediate point `i`
(for `i` in `range(1, num_points - 1)`) sits at fraction
`i / (num_points - 1)`. -/
def basePoints (origin destination : ℚ × ℚ) (num_points : ℕ) : List (ℚ × ℚ) :=
  [origin] ++
  ((List.range' 1 (num_points - 2)).map fun i =>
    let frac : ℚ := (i : ℚ) / ((num_points : ℚ) - 1)
    (origin.1 + (destination.1 - origin.1) * frac,
     origin.2 + (destination.2 - origin.2) * frac)) ++
  [destination]

/-- Midpoint with the slight offset of lines 417-429:
`(mid_lat + lat_offset*0.5, mid_lng + lng_offset*0.5)` where the offset is
one tenth of the coordinate difference to the next point. -/
def offsetMidpoint (p q : ℚ × ℚ) : ℚ × ℚ :=
  ((p.1 + q.1) / 2 + (q.1 - p.1) * (1/10) * (1/2),
   (p.2 + q.2) / 2 + (q.2 - p.2) * (1/10) * (1/2))

/-- The `enhanced_points` loop of `_generate_route_sample_points`
(lines 408-429): after appending each point, if it is not the last and the
accumulated list is still shorter than 20, append an offset midpoint toward
the next point.  `count` is the length of the accumulated list so far. -/
def addMidpoints : List (ℚ × ℚ) → ℕ → List (ℚ × ℚ)
  | [], _ => []
  | p :: rest, count =>
    match rest with
    | [] => [p]
    | q :: _ =>
      if count + 1 < 20 then p :: offsetMidpoint p q :: addMidpoints rest (count + 2)
      else p :: addMidpoints rest (count + 1)

/-- `StateAnalyzer._generate_route_sample_points`
(src/state_analyzer.py lines 374-433), capped at
`config.ROUTE_SAMPLE_POINTS_MAX`. -/
def generate_route_sample_points (origin destination : ℚ × ℚ)
    (distance_miles : ℚ) : List (ℚ × ℚ) :=
  (addMidpoints (basePoints origin destination (numSamplePoints distance_miles)) 0).take
    Config.ROUTE_SAMPLE_POINTS_MAX

/-- Answer of the `i`-th call (0-based) to
`StateAnalyzer._reverse_geocode_to_state` in a run, read off a trace of
remote reverse-geocoding results; past the end of the trace a call fails. -/
def traceAnswer (answers : List (Option String)) (i : ℕ) : Option String :=
  answers.getD i none

/-- `distance_ratio` of sample point `i` among `n` points
(src/state_analyzer.py lines 338-343). -/
def sampleFrac (i n : ℕ) : ℚ := if 1 < n then (i : ℚ) / ((n : ℚ) - 1) else 0

/-- `StateAnalyzer.analyze_route_states_enhanced`
(src/state_analyzer.py lines 299-372).  One reverse-geocoding call is made
per sample point, in order; points whose call fails are skipped.  If no
point resolves, the endpoint fallback runs, issuing two further calls (for
the origin and the destination). -/
def analyze_route_states_enhanced (answers : List (Option String))
    (polyline : Option String) (origin_coords destination_coords : ℚ × ℚ)
    (total_distance_miles : ℚ) : AnalysisResult :=
  let sample_points :=
    generate_route_sample_points origin_coords destination_coords total_distance_miles
  let n := sample_points.length
  let states_encountered : List (String × ℚ) :=
    (List.range n).filterMap fun i =>
      (traceAnswer answers i).map fun s => (s, sampleFrac i n)
  if states_encountered.isEmpty then
    fallback_endpoint_state_analysis origin_coords destination_coords
      (traceAnswer answers n) (traceAnswer answers (n+1)) total_distance_miles
  else
    calculate_enhanced_state_mileage states_encountered total_distance_miles

/-- The 48 contiguous-US state codes listed in
`calculate_state_miles_from_polyline` (src/state_analyzer.py lines 233-282). -/
def contiguousStates : List String :=
  ["AL", "AZ", "AR", "CA", "CO", "CT", "DE", "FL", "GA", "ID", "IL", "IN",
   "IA", "KS", "KY", "LA", "ME", "MD", "MA", "MI", "MN", "MS", "MO", "MT",
   "NE", "NV", "NH", "NJ", "NM", "NY", "NC", "ND", "OH", "OK", "OR", "PA",
   "RI", "SC", "SD", "TN", "TX", "UT", "VT", "VA", "WA", "WV", "WI", "WY"]

/-- The scale factor `total_distance_miles / calculated_total_miles` of
src/state_analyzer.py line 221, applied to the raw per-state miles. -/
def scaledStateMiles (raw_lengths_meters : List (String × ℚ))
    (total_distance_miles : ℚ) : List (String × ℚ) :=
  let state_miles := raw_lengths_meters.map
    fun p => (p.1, p.2 / Config.METERS_TO_MILES_CONVERSION)
  let total_route_length_meters := (raw_lengths_meters.map Prod.snd).sum
  if state_miles ≠ [] ∧ 0 < total_route_length_meters then
    let calculated_total_miles := (state_miles.map Prod.snd).sum
    if 0 < calculated_total_miles then
      state_miles.map fun p =>
        (p.1, p.2 * (total_distance_miles / calculated_total_miles))
    else state_miles
  else state_miles

/-- `StateAnalyzer.calculate_state_miles_from_polyline`
(src/state_analyzer.py lines 105-297) from the intersection loop's output
onward.  `raw_lengths_meters` is the insertion-ordered `state_miles`
dictionary content in meters: one entry per state row whose intersection
length was positive (state codes are unique in the boundary shapefile, so
`total_route_length_meters` is their sum).  The stages embedded here are
the rescale to the authoritative total (with 1-decimal rounding, lines
217-223), the minimum-mileage filter (lines 225-230, against
`config.MIN_STATE_MILES_THRESHOLD`, passed as `threshold`) and the
contiguous-states filter (lines 232-287). -/
def calculate_state_miles_from_polyline (raw_lengths_meters : List (String × ℚ))
    (total_distance_miles : ℚ) (threshold : ℚ) : List (String × ℚ) :=
  let rescaled := (scaledStateMiles raw_lengths_meters total_distance_miles).map
    fun p => (p.1, round1 p.2)
  let denoised := rescaled.filter fun p => threshold ≤ p.2
  denoised.filter fun p => p.1 ∈ contiguousStates

/-- The transcendental operations used by the haversine formula in
`RouteAnalyzer.estimate_great_circle_distance`.  They are parameters of the
embedding (exact real trigonometry is not executable); every theorem below
holds for an arbitrary interpretation. -/
structure TrigOps where
  sinQ : ℚ → ℚ
  cosQ : ℚ → ℚ
  asinQ : ℚ → ℚ
  sqrtQ : ℚ → ℚ
  piQ : ℚ

/-- `math.radians`. -/
def radiansQ (T : TrigOps) (deg : ℚ) : ℚ := deg * T.piQ / 180

/-- `RouteAnalyzer.estimate_great_circle_distance`
(src/route_analyzer.py lines 140-178): haversine with Earth radius
`config.GREAT_CIRCLE_EARTH_RADIUS_MILES`, rounded to one decimal;
`0.0` when either coordinate pair is `None`. -/
def estimate_great_circle_distance (T : TrigOps)
    (coords1 coords2 : Option (ℚ × ℚ)) : ℚ :=
  match coords1, coords2 with
  | some (la1, lo1), some (la2, lo2) =>
    let lat1 := radiansQ T la1
    let lon1 := radiansQ T lo1
    let lat2 := radiansQ T la2
    let lon2 := radiansQ T lo2
    let dlat := lat2 - lat1
    let dlon := lon2 - lon1
    let a := T.sinQ (dlat/2) ^ 2 + T.cosQ lat1 * T.cosQ lat2 * T.sinQ (dlon/2) ^ 2
    let c := 2 * T.asinQ (T.sqrtQ a)
    round1 (c * Config.GREAT_CIRCLE_EARTH_RADIUS_MILES)
  | _, _ => 0

/-- One element of a HERE route's `sections` array, keeping the fields the
code reads: `section["summary"]["length"]` (already defaulted to 0 when the
key chain is missing) and `section["polyline"]`. -/
structure RouteSection where
  summary_length : ℚ
  polyline : Option String
deriving DecidableEq

/-- The first route of a HERE `/v8/routes` response body.
`summary_length = some v` models `"summary" in route` with
`route["summary"].get("length", 0) == v`; `sections = some l` models
`"sections" in route`. -/
structure HereRoute where
  summary_length : Option ℚ
  sections : Option (List RouteSection)
deriving DecidableEq

/-- Outcome of the HERE routing HTTP call in
`RouteAnalyzer.calculate_route_distance`: either any raised exception
(connection error, timeout, `raise_for_status`, JSON decoding), carrying
`str(e)`, or a decoded body's `routes` array. -/
inductive HereOutcome where
  | exn (msg : String)
  | ok (routes : List HereRoute)
deriving DecidableEq

/-- Return dictionary of `RouteAnalyzer.calculate_route_distance`. -/
structure RouteResult where
  distance_miles : ℚ
  api_used : String
  polyline : Option (List String)
  state_miles : List (String × ℚ)
  errorKey : Option String
deriving DecidableEq

/-- A section's polyline as collected by
`[section.get('polyline') for section in sections if section.get('polyline')]`
(empty strings are falsy and skipped). -/
def truthyPolyline (s : RouteSection) : Option String :=
  match s.polyline with
  | some p => if p = "" then none else some p
  | none => none

/-- `RouteAnalyzer.calculate_route_distance`
(src/route_analyzer.py lines 36-138), with the HTTP call abstracted as a
`HereOutcome`.  `here_api_key = none` models a falsy configured key. -/
def calculate_route_distance (T : TrigOps) (here_api_key : Option String)
    (outcome : HereOutcome)
    (origin_coords destination_coords : Option (ℚ × ℚ)) : Option RouteResult :=
  match here_api_key with
  | none =>
    some { distance_miles := estimate_great_circle_distance T origin_coords destination_coords
           api_used := "great_circle_approximation"
           polyline := none
           state_miles := []
           errorKey := none }
  | some _ =>
    if origin_coords = none ∨ destination_coords = none then none
    else
      match outcome with
      | .exn msg =>
        some { distance_miles := estimate_great_circle_distance T origin_coords destination_coords
               api_used := "great_circle_fallback"
               polyline := none
               state_miles := []
               errorKey := some msg }
      | .ok routes =>
        match routes with
        | [] => none
        | route :: _ =>
          let distOpt : Option ℚ :=
            match route.summary_length with
            | some len => some len
            | none =>
              match route.sections with
              | some secs => if secs.length > 0 then
                  some ((secs.map RouteSection.summary_length).sum) else none
              | none => none
          match distOpt with
          | none => none
          | some distance_meters =>
            let polyline_data : Option (List String) :=
              match route.sections with
              | some secs =>
                if secs.length > 0 then some (secs.filterMap truthyPolyline) else none
              | none => none
            some { distance_miles := round1 (distance_meters / Config.METERS_TO_MILES_CONVERSION)
                   api_used := "HERE"
                   polyline := polyline_data
                   state_miles := []
                   errorKey := none }

/-- A valid stop extracted by `calculate_trip_distances`
(src/route_analyzer.py lines 238-243). -/
structure Stop where
  stop_type : String
  location : String
  state : String
  coordinates : ℚ × ℚ
deriving DecidableEq

/-- The per-leg dictionary built by `calculate_trip_distances`
(src/route_analyzer.py lines 273-308).  A successful leg has
`api_used = some _`; a failed leg has `calculation_failed = true`,
`distance_miles = 0` and `errorKey = some "Route calculation failed"`. -/
structure LegData where
  leg_number : ℕ
  origin : Stop
  destination : Stop
  distance_miles : ℚ
  api_used : Option String
  calculation_failed : Bool
  errorKey : Option String
deriving DecidableEq

/-- Fallback stop for (unreachable) out-of-range indexing. -/
def defaultStop : Stop := ⟨"", "", "", (0, 0)⟩

/-- The leg loop of `calculate_trip_distances`
(src/route_analyzer.py lines 261-311).  `legInfo i` is the value returned
by the `calculate_route_distance` call for leg `i` (0-based), i.e. the
routing collaborator's response for that leg. -/
def tripLegs (legInfo : ℕ → Option RouteResult) (valid_stops : List Stop) :
    List LegData :=
  (List.range (valid_stops.length - 1)).map fun i =>
    let origin := valid_stops.getD i defaultStop
    let destination := valid_stops.getD (i+1) defaultStop
    match legInfo i with
    | some di =>
      { leg_number := i + 1, origin := origin, destination := destination
        distance_miles := di.distance_miles, api_used := some di.api_used
        calculation_failed := false, errorKey := none }
    | none =>
      { leg_number := i + 1, origin := origin, destination := destination
        distance_miles := 0, api_used := none
        calculation_failed := true, errorKey := some "Route calculation failed" }

/-- The `trip_polylines` accumulation of lines 295-300: for each successful
leg, extend with the truthy elements of a list-valued polyline (a
string-valued polyline never occurs in `calculate_route_distance` output). -/
def tripPolylines (legInfo : ℕ → Option RouteResult) (valid_stops : List Stop) :
    List String :=
  ((List.range (valid_stops.length - 1)).map fun i =>
    match legInfo i with
    | some di =>
      match di.polyline with
      | some pls => pls.filter (fun pl => pl ≠ "")
      | none => []
    | none => []).flatten

/-- `max(set(errors), key=errors.count)` of src/route_analyzer.py line 333.
Python's `set` iteration order is hash-dependent; dedup order only matters
for ties, and every reachable error list holds a single distinct string. -/
def mostCommonError (errors : List String) : Option String :=
  errors.dedup.foldl
    (fun best s =>
      match best with
      | none => some s
      | some b => if errors.count b < errors.count s then some s else best)
    none

/-- Summary dictionary of `calculate_trip_distances`.  `Option` fields model
keys present only on some return paths. -/
structure TripResult where
  legs : List LegData
  total_legs : Option ℕ
  successful_calculations : Option ℕ
  total_distance_miles : ℚ
  calculation_success : Bool
  trip_polylines : Option (List String)
  calculation_errors : Option (List String)
  error_summary : Option String
  primary_error : Option String
  errorKey : Option String
deriving DecidableEq

/-- `RouteAnalyzer.calculate_trip_distances`
(src/route_analyzer.py lines 180-352) from the `valid_stops` list onward
(the extraction of valid stops from the geocoded coordinate dictionary
precedes this, lines 204-243); `legInfo` gives the routing collaborator's
per-leg responses.  With fewer than two valid stops the degraded
`Insufficient valid coordinates` dictionary is returned. -/
def calculate_trip_distances (legInfo : ℕ → Option RouteResult)
    (valid_stops : List Stop) : TripResult :=
  if valid_stops.length < 2 then
    { legs := [], total_legs := none, successful_calculations := none
      total_distance_miles := 0, calculation_success := false
      trip_polylines := none, calculation_errors := none, error_summary := none
      primary_error := none, errorKey := some "Insufficient valid coordinates" }
  else
    let legs := tripLegs legInfo valid_stops
    let total_distance := ((legs.filter fun l => !l.calculation_failed).map
      LegData.distance_miles).sum
    let successful_legs := (legs.filter fun l => !l.calculation_failed).length
    let calculation_success := decide (0 < successful_legs)
    let failed_legs_errors := (legs.filter fun l => l.calculation_failed).map
      fun l => l.errorKey.getD "Unknown error"
    { legs := legs
      total_legs := some legs.length
      successful_calculations := some successful_legs
      total_distance_miles := round1 total_distance
      calculation_success := calculation_success
      trip_polylines := some (tripPolylines legInfo valid_stops)
      calculation_errors := if successful_legs = 0 then some failed_legs_errors else none
      error_summary :=
        if successful_legs = 0 then
          some ("All " ++ toString legs.length ++ " distance calculations failed")
        else none
      primary_error :=
        if successful_legs = 0 ∧ failed_legs_errors ≠ [] then
          mostCommonError failed_legs_errors
        else none
      errorKey := none }

/-- Values stored at the top level of a trip-distance dictionary. -/
inductive PyVal where
  | num (q : ℚ)
  | str (s : String)
  | boolVal (b : Bool)
  | legsVal (l : List LegData)
  | mileage (m : List SMEntry)
  | strList (l : List String)
deriving DecidableEq

/-- A Python dictionary with string keys, as an insertion-ordered
association list with unique keys maintained by `dictSet`. -/
def Dict : Type := List (String × PyVal)

instance : DecidableEq Dict := inferInstanceAs (DecidableEq (List (String × PyVal)))

/-- `d.get(k)` / `d[k]`. -/
def dictGet (d : Dict) (k : String) : Option PyVal :=
  match d with
  | [] => none
  | (k', v) :: rest => if k' = k then some v else dictGet rest k

/-- `d[k] = v`: replace in place when the key exists, else append. -/
def dictSet (d : Dict) (k : String) (v : PyVal) : Dict :=
  match d with
  | [] => [(k, v)]
  | (k', v') :: rest =>
    if k' = k then (k, v) :: rest else (k', v') :: dictSet rest k v

/-- `trip_distance_data.get("total_distance_miles", 0)` (a non-numeric
value behaves like the `0` default for the `<= 0` comparison). -/
def tripTotalOf (d : Dict) : ℚ :=
  match dictGet d "total_distance_miles" with
  | some (.num q) => q
  | _ => 0

/-- `trip_distance_data.get("legs", [])`. -/
def tripLegsOf (d : Dict) : List LegData :=
  match dictGet d "legs" with
  | some (.legsVal l) => l
  | _ => []

/-- `StateAnalyzer.add_state_mileage_to_trip_data`
(src/state_analyzer.py lines 625-703).

* `gis_available` is the module flag `GIS_AVAILABLE`;
* `geomMiles pls total` is the value of the
  `calculate_state_miles_from_polyline(pls, total)` call (whose GIS
  interior is abstracted — see `calculate_state_miles_from_polyline` for
  the embedded tail stages);
* `answers` is the reverse-geocoding trace consumed when the sampling
  analysis runs;
* `polylines = some l` models a list argument (`none` models `None`; an
  empty list is falsy, like `None`, in `if polylines and GIS_AVAILABLE`).

Legs produced by `calculate_trip_distances` always carry `origin`,
`destination` and `coordinates` keys, so the `in`-checks of lines 655-659
are modelled as always succeeding on a non-empty leg list. -/
def add_state_mileage_to_trip_data (gis_available : Bool)
    (geomMiles : List String → ℚ → List (String × ℚ))
    (answers : List (Option String))
    (trip_distance_data : Dict) (polylines : Option (List String)) : Dict :=
  let result := trip_distance_data
  let total_distance := tripTotalOf trip_distance_data
  let legs := tripLegsOf trip_distance_data
  if total_distance ≤ 0 ∨ legs = [] then
    dictSet result "state_mileage" (.mileage [])
  else
    let origin_coords := legs.head?.map fun l => l.origin.coordinates
    let destination_coords := legs.getLast?.map fun l => l.destination.coordinates
    let state_miles : List (String × ℚ) :=
      if (polylines.getD []) ≠ [] ∧ gis_available then
        geomMiles (polylines.getD []) total_distance
      else
        match origin_coords, destination_coords with
        | some oc, some dc =>
          ((analyze_route_states_enhanced answers none oc dc total_distance).states.map
            fun e => (e.state, e.miles))
        | _, _ => []
    let state_mileage := sortByMilesDesc (state_miles.map fun p =>
      ⟨p.1, round1 p.2,
        round1 (if 0 < total_distance then p.2 / total_distance * 100 else 0)⟩)
    dictSet result "state_mileage" (.mileage state_mileage)

/-- The `state_mileage` value of a processed trip dictionary. -/
def stateMileageOf (d : Dict) : List SMEntry :=
  match dictGet d "state_mileage" with
  | some (.mileage m) => m
  | _ => []

/-! ## Example inputs shared by witnesses and counterexamples -/

def exStop1 : Stop := ⟨"trip_started_from", "Fontana, CA", "CA", (34, -117)⟩

def exStop2 : Stop := ⟨"drop_off", "Las Vegas, NV", "NV", (36, -115)⟩

def exLeg : LegData := ⟨1, exStop1, exStop2, 100, some ("HERE"), false, none⟩

/-- A trip-distance dictionary with total 100 miles and one leg. -/
def exDict100 : Dict :=
  [("total_distance_miles", .num 100), ("legs", .legsVal [exLeg])]

/-- A trip-distance dictionary with total 1 mile and one leg. -/
def exDict1 : Dict :=
  [("total_distance_miles", .num 1),
   ("legs", .legsVal [⟨1, exStop1, exStop2, 1, some ("HERE"), false, none⟩])]

/-- A trip-distance dictionary with total 301.7 miles and one leg. -/
def exDictC8 : Dict :=
  [("total_distance_miles", .num (3017/10)), ("legs", .legsVal [exLeg])]

/-- An all-zero interpretation of the haversine transcendentals. -/
def trigZero : TrigOps := ⟨fun _ => 0, fun _ => 0, fun _ => 0, fun _ => 0, 0⟩

/-! ## Helper lemmas -/

lemma ratFloor_eq (x : ℚ) : x.floor = ⌊x⌋ :=
  (Rat.floor_def' x).trans Rat.floor_def.symm

lemma le_rhe (x : ℚ) : x.floor ≤ rhe x := by
  unfold rhe
  split
  · omega
  · split
    · omega
    · split <;> omega

lemma rhe_intCast (n : ℤ) : rhe (n : ℚ) = n := by
  have hfl : ((n : ℚ)).floor = n := by rw [ratFloor_eq]; exact Int.floor_intCast n
  unfold rhe
  rw [hfl]
  simp

/-- If `t` is a fixed point of one-decimal rounding, rounding preserves
being at least `t`. -/
lemma round1_le_of_fixed {t d : ℚ} (hfix : round1 t = t) (h : t ≤ d) :
    t ≤ round1 d := by
  have h1 : ((rhe (10 * t) : ℤ) : ℚ) = 10 * t := by
    unfold round1 at hfix
    field_simp at hfix
    linarith
  have h2 : rhe (10 * t) ≤ ⌊(10 * d : ℚ)⌋ := by
    apply Int.le_floor.mpr
    rw [h1]
    linarith
  have h3 : ((⌊(10 * d : ℚ)⌋ : ℤ) : ℚ) ≤ ((rhe (10 * d) : ℤ) : ℚ) := by
    have := le_rhe (10 * d)
    rw [ratFloor_eq] at this
    exact_mod_cast this
  have h4 : ((rhe (10 * t) : ℤ) : ℚ) ≤ ((rhe (10 * d) : ℤ) : ℚ) :=
    le_trans (by exact_mod_cast h2) h3
  unfold round1
  rw [h1] at h4
  linarith

lemma round1_tenth_int (k : ℤ) : round1 ((k : ℚ) / 10) = (k : ℚ) / 10 := by
  unfold round1
  have h : (10 : ℚ) * ((k : ℚ) / 10) = (k : ℚ) := by ring
  rw [h, rhe_intCast]

lemma round1_one_fixed : round1 (1 : ℚ) = 1 := by
  have h := round1_tenth_int 10
  norm_num at h
  exact h

lemma one_le_round1 {d : ℚ} (h : 1 ≤ d) : 1 ≤ round1 d :=
  round1_le_of_fixed round1_one_fixed h

lemma round1_hundred : round1 (100 : ℚ) = 100 := by
  have h := round1_tenth_int 1000
  norm_num at h
  exact h

lemma sum_snd_map_div (l : List (String × ℚ)) (m : ℚ) :
    ((l.map fun p => (p.1, p.2 / m)).map Prod.snd).sum = (l.map Prod.snd).sum / m := by
  induction l with
  | nil => simp
  | cons h t ih => simp [Function.comp, add_div] at ih ⊢; linarith

lemma sum_snd_map_mul (l : List (String × ℚ)) (k : ℚ) :
    ((l.map fun p => (p.1, p.2 * k)).map Prod.snd).sum = (l.map Prod.snd).sum * k := by
  induction l with
  | nil => simp
  | cons h t ih => simp [Function.comp, add_mul] at ih ⊢; linarith

lemma sorted_sortByMilesDesc (l : List SMEntry) :
    List.Sorted milesDescR (sortByMilesDesc l) :=
  List.sorted_insertionSort milesDescR l

lemma mem_sortByMilesDesc {e : SMEntry} {l : List SMEntry} :
    e ∈ sortByMilesDesc l ↔ e ∈ l :=
  (List.perm_insertionSort milesDescR l).mem_iff

lemma dictGet_dictSet_self (d : Dict) (k : String) (v : PyVal) :
    dictGet (dictSet d k v) k = some v := by
  induction d with
  | nil => simp [dictGet, dictSet]
  | cons hd t ih =>
    obtain ⟨k0, v0⟩ := hd
    by_cases hk : k0 = k
    · simp [dictGet, dictSet, hk]
    · simp only [dictSet, if_neg hk, dictGet]
      exact ih


lemma dictGet_dictSet_ne (d : Dict) (k k2 : String) (v : PyVal) (h : k2 ≠ k) :
    dictGet (dictSet d k v) k2 = dictGet d k2 := by
  induction d with
  | nil =>
    simp only [dictSet, dictGet]
    rw [if_neg fun hh => h hh.symm]
  | cons hd t ih =>
    obtain ⟨k0, v0⟩ := hd
    by_cases hk : k0 = k
    · subst hk
      simp only [dictSet, if_pos rfl, dictGet]
      rw [if_neg fun hh => h hh.symm, if_neg fun hh => h hh.symm]
    · simp only [dictSet, if_neg hk, dictGet]
      by_cases hk2 : k0 = k2
      · rw [if_pos hk2, if_pos hk2]
      · rw [if_neg hk2, if_neg hk2, ih]

lemma stateMileageOf_dictSet (d : Dict) (m : List SMEntry) :
    stateMileageOf (dictSet d "state_mileage" (.mileage m)) = m := by
  unfold stateMileageOf
  rw [dictGet_dictSet_self]

/-- While every remaining resolved point reports the current state, the
segment loop produces exactly the one segment closed at progress 1. -/
lemma buildSegments_const (total sr : ℚ) (S : String) (rest : List (String × ℚ))
    (h : ∀ p ∈ rest, p.1 = S) :
    buildSegments total rest (some (S, sr)) = [⟨S, (1 - sr) * total, sr, 1⟩] := by
  induction rest with
  | nil => rfl
  | cons p t ih =>
    obtain ⟨s, r⟩ := p
    have hs : s = S := h (s, r) (List.mem_cons_self _ _)
    subst hs
    simp only [buildSegments, if_pos rfl]
    exact ih fun q hq => h q (List.mem_cons_of_mem _ hq)

/-! ## Claims -/

/-- C3 counterexample: in `_fallback_endpoint_state_analysis`, when exactly
one endpoint resolves (origin `CA`, destination unresolved, 100-mile leg)
the result's state list is empty — not 100% to the resolved state as the
claim says; and when neither endpoint resolves, the result is also empty —
the distance is dropped, and no `UNKNOWN` bucket appears. -/
theorem C3_counterexample :
    (fallback_endpoint_state_analysis (34, -117) (36, -115) (some ("CA")) none 100).states
      = [] ∧
    (fallback_endpoint_state_analysis (34, -117) (36, -115) none none 100).states
      = [] :=
  ⟨rfl, rfl⟩

/-- C3 (amended): the endpoint fallback assigns the rounded full distance at
100% to a single state when both endpoints resolve to it, and the rounded
half distance at 50% to each when they resolve to two different states; but
when either endpoint fails to resolve (one or both), the state list is
empty — the mileage is dropped from state attribution, with no `UNKNOWN`
bucket. -/
theorem C3_fallback_split (o d : ℚ × ℚ) (S T : String) (D : ℚ) :
    (fallback_endpoint_state_analysis o d (some S) (some S) D).states =
      [⟨S, round1 D, 100⟩] ∧
    (S ≠ T →
      (fallback_endpoint_state_analysis o d (some S) (some T) D).states =
        [⟨S, round1 (D / 2), 50⟩, ⟨T, round1 (D / 2), 50⟩]) ∧
    (fallback_endpoint_state_analysis o d none (some T) D).states = [] ∧
    (fallback_endpoint_state_analysis o d (some S) none D).states = [] ∧
    (fallback_endpoint_state_analysis o d none none D).states = [] := by
  refine ⟨?_, fun hne => ?_, rfl, rfl, rfl⟩
  · simp [fallback_endpoint_state_analysis]
  · simp [fallback_endpoint_state_analysis, hne]

/-- C3 witness: the two-different-states half at a concrete input. -/
theorem C3_fallback_split_witness :
    (fallback_endpoint_state_analysis (34, -117) (36, -115)
      (some ("CA")) (some ("NV")) 100).states =
      [⟨"CA", round1 (100 / 2), 50⟩, ⟨"NV", round1 (100 / 2), 50⟩] :=
  (C3_fallback_split (34, -117) (36, -115) "CA" "NV" 100).2.1 (by decide)

/-- C4 counterexample: with credentials configured and valid coordinates,
a provider response that succeeds but contains zero routes (the code's
"no route found" case), or a first route with neither a summary nor
sections (the "unexpected API response structure" case), makes
`calculate_route_distance` return `None` — not a haversine fallback
result as the claim states. -/
theorem C4_counterexample :
    calculate_route_distance trigZero (some ("key")) (.ok [])
      (some (34, -117)) (some (36, -115)) = none ∧
    calculate_route_distance trigZero (some ("key")) (.ok [⟨none, none⟩])
      (some (34, -117)) (some (36, -115)) = none := by
  with_unfolding_all decide

/-- C4 (amended): when the credentials are absent, or when the provider
call raises (timeout, error response, connection failure), the function
returns — it never raises, being total — a result whose distance is the
haversine great-circle estimate (whose Earth radius constant is 3956
miles) and whose polyline is absent; but the successful-response cases
with no route or an unexpected structure return `None` instead of the
fallback. -/
theorem C4_great_circle_fallback (T : TrigOps) (key msg : String)
    (o d : ℚ × ℚ) (outc : HereOutcome) :
    calculate_route_distance T none outc (some o) (some d) =
      some ⟨estimate_great_circle_distance T (some o) (some d),
        "great_circle_approximation", none, [], none⟩ ∧
    calculate_route_distance T (some key) (.exn msg) (some o) (some d) =
      some ⟨estimate_great_circle_distance T (some o) (some d),
        "great_circle_fallback", none, [], some msg⟩ ∧
    Config.GREAT_CIRCLE_EARTH_RADIUS_MILES = 3956 :=
  ⟨rfl, by simp [calculate_route_distance], rfl⟩

/-- C9: the endpoint fallback is deterministic and free of hidden inputs:
its entire result dictionary is a function of the two reverse-geocoding
resolution results and the total distance alone, so two runs with
identical resolution results and distance produce identical output (the
raw coordinates feed only the collaborator calls whose results are the
`origin_state`/`dest_state` arguments). -/
theorem C9_fallback_determinism (o1 d1 o2 d2 : ℚ × ℚ)
    (os ds : Option String) (D : ℚ) :
    fallback_endpoint_state_analysis o1 d1 os ds D =
      fallback_endpoint_state_analysis o2 d2 os ds D :=
  rfl

/-- C10: `add_state_mileage_to_trip_data` computes its result from a copy:
the returned dictionary agrees with the input on every top-level key other
than `state_mileage`, which is the only key added or replaced; in this
value-semantics embedding the argument dictionary itself is unchanged. -/
theorem C10_frame (gis : Bool) (geom : List String → ℚ → List (String × ℚ))
    (ans : List (Option String)) (d : Dict) (pl : Option (List String))
    (k : String) (hk : k ≠ "state_mileage") :
    dictGet (add_state_mileage_to_trip_data gis geom ans d pl) k = dictGet d k := by
  dsimp only [add_state_mileage_to_trip_data]
  by_cases h : tripTotalOf d ≤ 0 ∨ tripLegsOf d = []
  · rw [if_pos h]
    exact dictGet_dictSet_ne _ _ _ _ hk
  · rw [if_neg h]
    exact dictGet_dictSet_ne _ _ _ _ hk

/-- C10 witness: the `legs` key of a concrete trip dictionary is unchanged. -/
theorem C10_frame_witness :
    dictGet (add_state_mileage_to_trip_data true (fun _ _ => []) [] exDict100 none)
      "legs" = dictGet exDict100 ("legs") :=
  C10_frame true (fun _ _ => []) [] exDict100 none "legs" (by decide)

lemma sum_scaled (l : List (String × ℚ)) (total : ℚ)
    (h : (l.map Prod.snd).sum ≠ 0) :
    ((l.map fun p => (p.1, p.2 * (total / (l.map Prod.snd).sum))).map Prod.snd).sum
      = total := by
  rw [sum_snd_map_mul]
  field_simp

/-- C1 counterexample: a route whose raw intersection lengths are 99.5 mi
in CA and 0.5 mi in AZ against an authoritative total of 100 mi: the scale
factor is 1, but the minimum-mileage filter then drops AZ, so the returned
mapping sums to 99.5 — off the authoritative total by 0.5, beyond the
0.1-mile epsilon the claim asserts. -/
theorem C1_counterexample :
    ¬ |((calculate_state_miles_from_polyline
        [("CA", 16012933/100), ("AZ", 80467/100)] 100
        Config.MIN_STATE_MILES_THRESHOLD).map Prod.snd).sum - 100| < 1/10 := by
  with_unfolding_all decide

/-- C1 (amended): whenever the raw per-state intersection lengths have a
positive sum, the rescale stage itself conserves the authoritative total
exactly — the scaled per-state lengths sum to `total_distance_miles` before
rounding and filtering — and the returned mapping is a sublist of the
rounded scaled mapping, so its sum can fall short of the authoritative
total only through the per-state 1-decimal rounding and the entries dropped
by the minimum-mileage and contiguous-state filters. -/
theorem C1_rescale_conservation (raw : List (String × ℚ)) (total thr : ℚ)
    (hpos : 0 < (raw.map Prod.snd).sum) :
    ((scaledStateMiles raw total).map Prod.snd).sum = total ∧
    (calculate_state_miles_from_polyline raw total thr).Sublist
      ((scaledStateMiles raw total).map fun p => (p.1, round1 p.2)) := by
  constructor
  · have hM : (0:ℚ) < Config.METERS_TO_MILES_CONVERSION := by
      norm_num [Config.METERS_TO_MILES_CONVERSION]
    have hraw : raw ≠ [] := by
      intro hnil
      rw [hnil] at hpos
      simp at hpos
    have hmiles : raw.map (fun p => (p.1, p.2 / Config.METERS_TO_MILES_CONVERSION)) ≠ [] := by
      simpa using hraw
    have hctpos : 0 < (raw.map Prod.snd).sum / Config.METERS_TO_MILES_CONVERSION :=
      div_pos hpos hM
    have hc2 : 0 < ((raw.map fun p =>
        (p.1, p.2 / Config.METERS_TO_MILES_CONVERSION)).map Prod.snd).sum := by
      rw [sum_snd_map_div]
      exact hctpos
    dsimp only [scaledStateMiles]
    rw [if_pos ⟨hmiles, hpos⟩, if_pos hc2]
    exact sum_scaled _ _ (ne_of_gt hc2)
  · dsimp only [calculate_state_miles_from_polyline]
    exact (List.filter_sublist _).trans (List.filter_sublist _)

/-- C1 witness: one 1609.34-meter CA intersection rescaled to a 50-mile
authoritative total. -/
theorem C1_rescale_conservation_witness :
    ((scaledStateMiles [("CA", 160934/100)] 50).map Prod.snd).sum = 50 ∧
    (calculate_state_miles_from_polyline [("CA", 160934/100)] 50 1).Sublist
      ((scaledStateMiles [("CA", 160934/100)] 50).map fun p => (p.1, round1 p.2)) :=
  C1_rescale_conservation [("CA", 160934/100)] 50 1 (by with_unfolding_all decide)

lemma mostCommonError_replicate (m : ℕ) (hm : m ≠ 0) (c : String) :
    mostCommonError (List.replicate m c) = some c := by
  unfold mostCommonError
  rw [List.replicate_dedup hm]
  rfl

/-- C7: when every leg's distance computation fails (the routing
collaborator returns `None` for each leg) on a trip with at least two
valid stops, the returned summary — the function is total, so the trip
result is returned, never raised — reports zero successful calculations,
`calculation_success = False`, the `error_summary` string, and a
`primary_error` equal to the most frequent per-leg error (every failed leg
records `Route calculation failed`, which is therefore the most frequent). -/
theorem C7_all_legs_failed (legInfo : ℕ → Option RouteResult)
    (stops : List Stop) (h2 : 2 ≤ stops.length)
    (hfail : ∀ i, legInfo i = none) :
    (calculate_trip_distances legInfo stops).successful_calculations = some 0 ∧
    (calculate_trip_distances legInfo stops).calculation_success = false ∧
    (calculate_trip_distances legInfo stops).error_summary =
      some ("All " ++ toString (stops.length - 1) ++ " distance calculations failed") ∧
    (calculate_trip_distances legInfo stops).primary_error =
      some ("Route calculation failed") := by
  have hlegs : tripLegs legInfo stops =
      (List.range (stops.length - 1)).map fun i =>
        { leg_number := i + 1, origin := stops.getD i defaultStop
          destination := stops.getD (i+1) defaultStop
          distance_miles := 0, api_used := none
          calculation_failed := true
          errorKey := some ("Route calculation failed") } := by
    unfold tripLegs
    apply List.map_congr_left
    intro i _
    rw [hfail i]
  have hall : ∀ l ∈ tripLegs legInfo stops, l.calculation_failed = true := by
    intro l hl
    rw [hlegs] at hl
    obtain ⟨i, _, rfl⟩ := List.mem_map.mp hl
    rfl
  have hallerr : ∀ l ∈ tripLegs legInfo stops,
      l.errorKey = some ("Route calculation failed") := by
    intro l hl
    rw [hlegs] at hl
    obtain ⟨i, _, rfl⟩ := List.mem_map.mp hl
    rfl
  have hfilter : (tripLegs legInfo stops).filter (fun l => !l.calculation_failed) = [] := by
    rw [List.filter_eq_nil_iff]
    intro l hl
    rw [hall l hl]
    decide
  have hlen : (tripLegs legInfo stops).length = stops.length - 1 := by
    rw [hlegs, List.length_map, List.length_range]
  have herrs : ((tripLegs legInfo stops).filter (fun l => l.calculation_failed)).map
      (fun l => l.errorKey.getD ("Unknown error")) =
      List.replicate (stops.length - 1) ("Route calculation failed") := by
    rw [List.filter_eq_self.mpr hall]
    rw [hlegs]
    rw [List.map_map]
    rw [List.eq_replicate_iff]
    constructor
    · rw [List.length_map, List.length_range]
    · intro b hb
      obtain ⟨i, _, rfl⟩ := List.mem_map.mp hb
      rfl
  have hm1 : stops.length - 1 ≠ 0 := by omega
  have hne : ¬ stops.length < 2 := by omega
  dsimp only [calculate_trip_distances]
  rw [if_neg hne]
  refine ⟨?_, ?_, ?_, ?_⟩
  · dsimp only
    rw [hfilter]
    rfl
  · dsimp only
    rw [hfilter]
    rfl
  · dsimp only
    rw [hfilter, hlen]
    rfl
  · dsimp only
    rw [hfilter, herrs]
    rw [if_pos ⟨rfl, by simp [hm1]⟩]
    exact mostCommonError_replicate _ hm1 _

/-- C7 witness: a two-stop trip whose single leg's routing call fails. -/
theorem C7_all_legs_failed_witness :
    (calculate_trip_distances (fun _ => none) [exStop1, exStop2]).successful_calculations
      = some 0 ∧
    (calculate_trip_distances (fun _ => none) [exStop1, exStop2]).calculation_success
      = false ∧
    (calculate_trip_distances (fun _ => none) [exStop1, exStop2]).error_summary =
      some ("All " ++ toString (([exStop1, exStop2] : List Stop).length - 1) ++
        " distance calculations failed") ∧
    (calculate_trip_distances (fun _ => none) [exStop1, exStop2]).primary_error =
      some ("Route calculation failed") :=
  C7_all_legs_failed (fun _ => none) [exStop1, exStop2] (by decide) (fun _ => rfl)

/-- C2 counterexample: a trip with a polyline and GIS available whose
geometric attribution returns empty: the final `state_mileage` is empty —
the sampling estimator is never attempted, although on the same endpoints,
total and reverse-geocoding trace it would have produced a non-empty
result (CA at 100%). -/
theorem C2_counterexample :
    stateMileageOf (add_state_mileage_to_trip_data true (fun _ _ => [])
      [some ("CA")] exDict100 (some ["x"])) = [] ∧
    (analyze_route_states_enhanced [some ("CA")] none (34, -117) (36, -115) 100).states
      = [⟨"CA", 100, 100⟩] := by
  with_unfolding_all decide

/-- C2 (amended): when the trip has polylines and GIS is available, the
geometric result is used unconditionally — even when it is empty.  The
output does not depend on the reverse-geocoding collaborator at all (the
sampling estimator is never consulted), and on a trip with positive total
and at least one leg the final `state_mileage` is exactly the formatted,
sorted geometric mapping. -/
theorem C2_geometric_branch (geom : List String → ℚ → List (String × ℚ))
    (ans1 ans2 : List (Option String)) (d : Dict) (pl : List String)
    (hpl : pl ≠ []) :
    add_state_mileage_to_trip_data true geom ans1 d (some pl) =
      add_state_mileage_to_trip_data true geom ans2 d (some pl) ∧
    (0 < tripTotalOf d → tripLegsOf d ≠ [] →
      stateMileageOf (add_state_mileage_to_trip_data true geom ans1 d (some pl)) =
        sortByMilesDesc ((geom pl (tripTotalOf d)).map fun p =>
          ⟨p.1, round1 p.2, round1 (p.2 / tripTotalOf d * 100)⟩)) := by
  have hcond : (some pl).getD [] ≠ [] ∧ (true : Bool) = true := ⟨hpl, rfl⟩
  constructor
  · dsimp only [add_state_mileage_to_trip_data]
    by_cases h : tripTotalOf d ≤ 0 ∨ tripLegsOf d = []
    · rw [if_pos h, if_pos h]
    · rw [if_neg h, if_neg h, if_pos hcond, if_pos hcond]
  · intro htot hlegs
    dsimp only [add_state_mileage_to_trip_data]
    rw [if_neg (by push_neg; exact ⟨htot, hlegs⟩)]
    rw [if_pos hcond, stateMileageOf_dictSet, Option.getD_some]
    congr 1
    apply List.map_congr_left
    intro p _
    rw [if_pos htot]

/-- C2 witness: the geometric branch at a concrete trip, with two
different reverse-geocoding traces. -/
theorem C2_geometric_branch_witness :
    add_state_mileage_to_trip_data true (fun _ _ => [("CA", 100)]) []
        exDict100 (some ["x"]) =
      add_state_mileage_to_trip_data true (fun _ _ => [("CA", 100)]) [some ("NV")]
        exDict100 (some ["x"]) ∧
    stateMileageOf (add_state_mileage_to_trip_data true (fun _ _ => [("CA", 100)]) []
        exDict100 (some ["x"])) =
      sortByMilesDesc (([("CA", (100:ℚ))].map fun p =>
        ⟨p.1, round1 p.2, round1 (p.2 / tripTotalOf exDict100 * 100)⟩)) :=
  ⟨(C2_geometric_branch (fun _ _ => [("CA", 100)]) [] [some ("NV")] exDict100 ["x"]
      (by decide)).1,
   (C2_geometric_branch (fun _ _ => [("CA", 100)]) [] [some ("NV")] exDict100 ["x"]
      (by decide)).2
    (by with_unfolding_all decide) (by with_unfolding_all decide)⟩

/-- C8 counterexample: a trip with total 301.7 miles and a geometric
mapping of 100 miles in CA: the reported entry is
`{CA, miles: 100.0, percentage: 33.1}`, and `33.1` is not equal to
`miles / total * 100 = 100 / 301.7 * 100` — the stored percentage is
rounded to one decimal, so the claimed exact equation fails. -/
theorem C8_counterexample :
    stateMileageOf (add_state_mileage_to_trip_data true (fun _ _ => [("CA", 100)])
      [] exDictC8 (some ["p"])) = [⟨"CA", 100, 331/10⟩] ∧
    ¬ ((331/10 : ℚ) = 100 / (3017/10) * 100) := by
  with_unfolding_all decide

/-- C8 (amended): for every input, the returned `state_mileage` list is
sorted in descending order of miles, and each entry is built from some
per-state distance `q` of the chosen attribution mapping with
`miles = round1 q` and `percentage = round1 (q / total * 100)` when the
trip total is positive (`round1 0` = 0 otherwise; when the total is not
positive the list is empty, so all percentages are vacuously 0). -/
theorem C8_sorted_percentages (gis : Bool)
    (geom : List String → ℚ → List (String × ℚ))
    (ans : List (Option String)) (d : Dict) (pl : Option (List String)) :
    List.Sorted milesDescR
      (stateMileageOf (add_state_mileage_to_trip_data gis geom ans d pl)) ∧
    ∀ y ∈ stateMileageOf (add_state_mileage_to_trip_data gis geom ans d pl),
      ∃ q : ℚ, y.miles = round1 q ∧
        y.percentage = round1 (if 0 < tripTotalOf d then q / tripTotalOf d * 100 else 0) := by
  dsimp only [add_state_mileage_to_trip_data]
  by_cases h : tripTotalOf d ≤ 0 ∨ tripLegsOf d = []
  · rw [if_pos h, stateMileageOf_dictSet]
    exact ⟨List.sorted_nil, by simp⟩
  · rw [if_neg h, stateMileageOf_dictSet]
    refine ⟨sorted_sortByMilesDesc _, ?_⟩
    intro y hy
    rw [mem_sortByMilesDesc] at hy
    obtain ⟨p, _, rfl⟩ := List.mem_map.mp hy
    exact ⟨p.2, rfl, rfl⟩

/-- C8 witness: sortedness and the entry property at the concrete 301.7-mile
trip. -/
theorem C8_sorted_percentages_witness :
    List.Sorted milesDescR (stateMileageOf (add_state_mileage_to_trip_data true
      (fun _ _ => [("CA", 100)]) [] exDictC8 (some ["p"]))) ∧
    (∃ q : ℚ, (⟨"CA", 100, 331/10⟩ : SMEntry).miles = round1 q ∧
      (⟨"CA", 100, 331/10⟩ : SMEntry).percentage =
        round1 (if 0 < tripTotalOf exDictC8 then q / tripTotalOf exDictC8 * 100 else 0)) :=
  ⟨(C8_sorted_percentages true (fun _ _ => [("CA", 100)]) [] exDictC8 (some ["p"])).1,
   (C8_sorted_percentages true (fun _ _ => [("CA", 100)]) [] exDictC8 (some ["p"])).2
     ⟨"CA", 100, 331/10⟩ (by with_unfolding_all decide)⟩

lemma calcStateMiles_mem_le {raw : List (String × ℚ)} {total thr : ℚ}
    {e : String × ℚ}
    (he : e ∈ calculate_state_miles_from_polyline raw total thr) :
    thr ≤ e.2 := by
  dsimp only [calculate_state_miles_from_polyline] at he
  have h1 := (List.mem_filter.mp he).1
  exact of_decide_eq_true (List.mem_filter.mp h1).2

/-- C5 counterexample: a 1-mile leg whose samples all fail to resolve and
whose endpoint fallback resolves CA and NV: the final trip-level
`state_mileage` holds two entries of 0.5 mile each — below the configured
minimum-mileage threshold (default 1.0) — because the endpoint fallback
applies no threshold at all. -/
theorem C5_counterexample :
    stateMileageOf (add_state_mileage_to_trip_data false (fun _ _ => [])
      (List.replicate 9 none ++ [some ("CA"), some ("NV")]) exDict1 none) =
      [⟨"CA", 1/2, 50⟩, ⟨"NV", 1/2, 50⟩] ∧
    (1/2 : ℚ) < Config.MIN_STATE_MILES_THRESHOLD := by
  with_unfolding_all decide

/-- C5 (amended): the geometric attributor drops every state below the
configured threshold, and this survives to the final trip-level list when
the threshold is a 1-decimal value (as the 1.0 default is); the sampling
estimator drops every state whose aggregated share is below its fixed
1.0-mile cutoff; but the endpoint fallback applies no threshold, so a
fallback-attributed leg can put sub-threshold entries in the final list. -/
theorem C5_denoising (raw : List (String × ℚ)) (total thr : ℚ)
    (enc : List (String × ℚ)) (ans : List (Option String)) (d : Dict)
    (pl : List String) (e : String × ℚ) (x y : SMEntry)
    (hthr : round1 thr = thr) :
    (e ∈ calculate_state_miles_from_polyline raw total thr → thr ≤ e.2) ∧
    (x ∈ (calculate_enhanced_state_mileage enc total).states → 1 ≤ x.miles) ∧
    (y ∈ stateMileageOf (add_state_mileage_to_trip_data true
        (fun pls t => calculate_state_miles_from_polyline raw t thr) ans d (some pl)) →
      pl ≠ [] → thr ≤ y.miles) := by
  refine ⟨fun he => calcStateMiles_mem_le he, ?_, ?_⟩
  · dsimp only [calculate_enhanced_state_mileage]
    by_cases h : enc.isEmpty
    · rw [if_pos h]
      intro hx
      simp at hx
    · rw [if_neg h]
      intro hx
      dsimp only at hx
      rw [mem_sortByMilesDesc] at hx
      obtain ⟨p, hp, hfp⟩ := List.mem_filterMap.mp hx
      by_cases h12 : 1 ≤ p.2
      · rw [if_pos h12] at hfp
        have hx2 := Option.some.inj hfp
        rw [← hx2]
        exact one_le_round1 h12
      · rw [if_neg h12] at hfp
        exact absurd hfp (by simp)
  · intro hy hpl
    dsimp only [add_state_mileage_to_trip_data, Option.getD_some] at hy
    by_cases h : tripTotalOf d ≤ 0 ∨ tripLegsOf d = []
    · rw [if_pos h, stateMileageOf_dictSet] at hy
      simp at hy
    · rw [if_neg h, if_pos (⟨hpl, rfl⟩ : pl ≠ [] ∧ (true : Bool) = true),
        stateMileageOf_dictSet, mem_sortByMilesDesc] at hy
      obtain ⟨p, hp, hfp⟩ := List.mem_map.mp hy
      rw [← hfp]
      exact round1_le_of_fixed hthr (calcStateMiles_mem_le hp)

/-- C5 witness: the theorem at concrete inputs, with the rounding
fixed-point hypothesis discharged for the default 1.0 threshold. -/
theorem C5_denoising_witness :
    (("CA", (2:ℚ)) ∈ calculate_state_miles_from_polyline [("CA", 160934)] 2 1 →
      (1:ℚ) ≤ (("CA", (2:ℚ)) : String × ℚ).2) ∧
    ((⟨"CA", 2, 100⟩ : SMEntry) ∈ (calculate_enhanced_state_mileage [("CA", 0)] 2).states →
      (1:ℚ) ≤ (⟨"CA", 2, 100⟩ : SMEntry).miles) ∧
    ((⟨"CA", 100, 100⟩ : SMEntry) ∈ stateMileageOf (add_state_mileage_to_trip_data true
        (fun pls t => calculate_state_miles_from_polyline [("CA", 160934)] t 1) []
        exDict100 (some ["p"])) →
      ["p"] ≠ ([] : List String) → (1:ℚ) ≤ (⟨"CA", 100, 100⟩ : SMEntry).miles) :=
  C5_denoising [("CA", 160934)] 2 1 [("CA", 0)] [] exDict100 ["p"]
    ("CA", 2) ⟨"CA", 2, 100⟩ ⟨"CA", 100, 100⟩ (by with_unfolding_all decide)

/-- C6 counterexample: a 100-mile leg whose resolved samples all report CA
— but whose first seven samples (including the origin) failed to resolve:
the first resolved sample sits at progress 1/2, so CA's share is
`(1 - 1/2) * 100 = 50`, not the full leg distance the claim asserts for
the sampled method when every resolved sample reports the same state. -/
theorem C6_counterexample :
    (analyze_route_states_enhanced
      (List.replicate 7 none ++ [some ("CA")] ++ List.replicate 6 none ++ [some ("CA")])
      none (34, -117) (36, -115) 100).states = [⟨"CA", 50, 50⟩] ∧
    ((50:ℚ) ≠ 100) := by
  with_unfolding_all decide

/-- C6 (amended): same-state attribution yields one full-distance share in
the two code paths that guarantee it: the endpoint fallback when both
endpoints resolve to the same state, and the sampling aggregation when
every resolved sample reports the same state *and* the first sample (the
origin, at progress 0) resolved — in both cases the single share is the
1-decimal rounding of the full leg distance at 100%, provided the distance
is at least the sampling method's 1.0-mile cutoff. -/
theorem C6_same_state_full_share (o d : ℚ × ℚ) (S : String) (D : ℚ)
    (rest : List (String × ℚ)) (hall : ∀ p ∈ rest, p.1 = S) (hD : 1 ≤ D) :
    (fallback_endpoint_state_analysis o d (some S) (some S) D).states =
      [⟨S, round1 D, 100⟩] ∧
    (calculate_enhanced_state_mileage ((S, 0) :: rest) D).states =
      [⟨S, round1 D, 100⟩] := by
  have h0 : (0:ℚ) < D := lt_of_lt_of_le one_pos hD
  constructor
  · simp [fallback_endpoint_state_analysis]
  · have hseg : buildSegments D ((S, 0) :: rest) none = [⟨S, D, 0, 1⟩] := by
      have h1 : buildSegments D ((S, 0) :: rest) none =
          buildSegments D rest (some (S, 0)) := rfl
      rw [h1, buildSegments_const D 0 S rest hall]
      norm_num
    dsimp only [calculate_enhanced_state_mileage]
    rw [if_neg (by simp)]
    rw [hseg]
    dsimp only [List.foldl_cons, List.foldl_nil, addToAssoc,
      List.filterMap_cons, List.filterMap_nil]
    rw [if_pos hD, if_pos h0, div_self (ne_of_gt h0), one_mul, round1_hundred]
    dsimp only [sortByMilesDesc, List.insertionSort, List.orderedInsert]

/-- C6 witness: both halves at a concrete 100-mile leg with all samples in
CA. -/
theorem C6_same_state_full_share_witness :
    (fallback_endpoint_state_analysis (34, -117) (36, -115)
      (some ("CA")) (some ("CA")) 100).states = [⟨"CA", round1 100, 100⟩] ∧
    (calculate_enhanced_state_mileage [("CA", 0), ("CA", 1/2), ("CA", 1)] 100).states =
      [⟨"CA", round1 100, 100⟩] :=
  C6_same_state_full_share (34, -117) (36, -115) "CA" 100 [("CA", 1/2), ("CA", 1)]
    (by decide) (by with_unfolding_all decide)
